import Mathlib

/-!
Shallow embedding of the search layer of `elastic-agent-search`
(`src/src/search/hybrid_search.py` and `src/src/search/vector_search.py`).

Python dictionaries that carry filter values and document sources are
modelled as association lists `List (String × FVal)`; numbers are modelled
as `Rat` (scores are only compared, never combined arithmetically, so the
rational model is faithful for every property below). Exceptions raised by
the embedding provider are modelled with `Except String`; the retrieval
backend is a parameter mapping the built request to a list of hits.
-/

set_option autoImplicit false

/-- A Python value stored in a filter dictionary or a document source:
`None`, a string, a number, or a list of numbers (a vector). -/
inductive FVal where
  | vnull : FVal
  | vstr (s : String) : FVal
  | vnum (q : Rat) : FVal
  | vlist (l : List Rat) : FVal
  deriving DecidableEq, Repr

/-- A filter dictionary (and, in general, any Python string-keyed dict):
an association list of key/value pairs. -/
def FilterSet : Type := List (String × FVal)

instance : DecidableEq FilterSet := by
  unfold FilterSet
  infer_instance

/-- Membership/lookup in a Python dict (`'k' in d` / `d['k']`): the first
binding of the key, `none` when the key is absent. -/
def fsLookup : List (String × FVal) → String → Option FVal
  | [], _ => none
  | (k, v) :: rest, key => if k = key then some v else fsLookup rest key

/-- An Elasticsearch filter clause as built by `_build_filters`:
`{"range": {field: {"gte": .., "lte": ..}}}` or `{"term": {field: value}}`. -/
inductive FilterClause where
  | range (field : String) (gte : Option FVal) (lte : Option FVal) : FilterClause
  | term (field : String) (v : FVal) : FilterClause
  deriving DecidableEq, Repr

/-- `HybridSearch._build_filters` (hybrid_search.py lines 110-131): builds
the `must_clauses` list — a price range clause when `min_price` or
`max_price` is present (with `gte`/`lte` set exactly for the present keys),
then `term` clauses for `category` and `brand` when present, then a
`gte` range clause on `rating` when `min_rating` is present. Values are
taken from the dict verbatim, with no parsing or validation. -/
def build_filters (filters : FilterSet) : List FilterClause :=
  (if (fsLookup filters "min_price").isSome || (fsLookup filters "max_price").isSome then
    [FilterClause.range "price" (fsLookup filters "min_price") (fsLookup filters "max_price")]
  else []) ++
  (match fsLookup filters "category" with
   | some v => [FilterClause.term "category" v]
   | none => []) ++
  (match fsLookup filters "brand" with
   | some v => [FilterClause.term "brand" v]
   | none => []) ++
  (match fsLookup filters "min_rating" with
   | some v => [FilterClause.range "rating" (some v) none]
   | none => [])

/-- The five filter keys `_build_filters` reads; every other key is ignored. -/
def knownFilterKeys : List String :=
  ["min_price", "max_price", "category", "brand", "min_rating"]

/-- Spec-side translation (spec section 4.2 and step 5 of section 4.1),
written from the spec's words for comparison with `build_filters`: the
price-range predicate (if any price bound is present) first — `gte` for
`min_price` and/or `lte` for `max_price` —, then an exact-match `category`
predicate when present, then an exact-match `brand` predicate when present,
then a `gte` bound on `rating` when `min_rating` is present; absent fields
are omitted entirely. -/
def translate_spec (filters : FilterSet) : List FilterClause :=
  (match fsLookup filters "min_price", fsLookup filters "max_price" with
   | none, none => []
   | gte, lte => [FilterClause.range "price" gte lte]) ++
  (match fsLookup filters "category" with
   | some v => [FilterClause.term "category" v]
   | none => []) ++
  (match fsLookup filters "brand" with
   | some v => [FilterClause.term "brand" v]
   | none => []) ++
  (match fsLookup filters "min_rating" with
   | some v => [FilterClause.range "rating" (some v) none]
   | none => [])

/-- Truthiness of the `filters` argument (`if filters:` in Python):
`None` and the empty dict are falsy. -/
def filtersTruthy : Option FilterSet → Bool
  | none => false
  | some fs => !(List.isEmpty fs)

/-- The `multi_match` clause of the keyword query. Field boosts are the
`^n` suffixes of the source (`"title^3"`, `"description^2"`, `"tags"`,
the last with the default boost 1), modelled as (field, boost) pairs. -/
structure MultiMatch where
  query : String
  fields : List (String × Nat)
  matchType : String
  fuzziness : String
  deriving DecidableEq, Repr

/-- The `bool` keyword query: a `should` list of `multi_match` clauses and
an optional `filter` list (set only when `filters` is truthy). -/
structure KeywordQuery where
  should : List MultiMatch
  filter : Option (List FilterClause)
  deriving DecidableEq, Repr

/-- The kNN sub-query of the hybrid search request. -/
structure KnnQuery where
  field : String
  query_vector : List Rat
  k : Int
  num_candidates : Int
  filter : Option (List FilterClause)
  deriving DecidableEq, Repr

/-- The `rank.rrf` clause of the request. -/
structure RrfRank where
  window_size : Nat
  rank_constant : Nat
  deriving DecidableEq, Repr

/-- The full retrieval request built by `HybridSearch.search` and handed to
`self.client.search`. -/
structure SearchRequest where
  query : KeywordQuery
  knn : KnnQuery
  size : Int
  source_excludes : List String
  rank : RrfRank
  deriving DecidableEq, Repr

/-- A hit of the backend response: `_id`, `_score` and `_source`. -/
structure Hit where
  id : String
  score : Rat
  source : List (String × FVal)
  deriving DecidableEq, Repr

/-- Python dict update of one key (`d[k] = v`): replaces the value in
place when the key is bound, appends the pair otherwise. -/
def dictSet : List (String × FVal) → String → FVal → List (String × FVal)
  | [], k, v => [(k, v)]
  | (k0, v0) :: rest, k, v =>
    if k0 = k then (k, v) :: rest else (k0, v0) :: dictSet rest k v

/-- Python dict merge (`{**d, **src}` applied left to right): updates `d`
with every pair of `src`, later bindings overriding earlier ones. -/
def dictMerge (d : List (String × FVal)) : List (String × FVal) → List (String × FVal)
  | [] => d
  | (k, v) :: rest => dictMerge (dictSet d k v) rest

/-- The per-hit result dict `{'id': hit['_id'], 'score': hit['_score'],
**hit['_source']}` built by the result loops of both search classes. -/
def toResult (h : Hit) : List (String × FVal) :=
  dictMerge [("id", FVal.vstr h.id), ("score", FVal.vnum h.score)] h.source

/-- An observable external call made during `search`: the embedding call
(`embedding_generator.encode_query`) or the retrieval call
(`self.client.search`). -/
inductive Event where
  | embedCall (q : String)
  | backendCall (req : SearchRequest)
  deriving DecidableEq, Repr

/-- The retrieval request built by `HybridSearch.search`
(hybrid_search.py lines 47-96) for a given query, `top_k`, query vector
and filters: the boosted fuzzy `multi_match` keyword query, the kNN query
with `k = top_k` and `num_candidates = top_k * 3`, `size = top_k`, the
source exclusion pattern `*_vector`, and native RRF ranking with window
size 50 and rank constant 20. Filters, when truthy, are translated by
`build_filters` and attached to both sub-queries. -/
def hybrid_request (query : String) (top_k : Int) (query_vector : List Rat)
    (filters : Option FilterSet) : SearchRequest :=
  { query :=
      { should :=
          [{ query := query
             fields := [("title", 3), ("description", 2), ("tags", 1)]
             matchType := "best_fields"
             fuzziness := "AUTO" }]
        filter :=
          if filtersTruthy filters then some (build_filters (filters.getD [])) else none }
    knn :=
      { field := "combined_vector"
        query_vector := query_vector
        k := top_k
        num_candidates := top_k * 3
        filter :=
          if filtersTruthy filters then some (build_filters (filters.getD [])) else none }
    size := top_k
    source_excludes := ["*_vector"]
    rank := { window_size := 50, rank_constant := 20 } }

/-- `HybridSearch.search` (hybrid_search.py lines 25-108): call the
embedding provider (any exception propagates unchanged and stops the
search), build the request, call the backend, and map each hit of the
response to its result dict. The trace records the external calls issued.
The `semantic_weight` parameter is accepted and, as in the source, never
used. Note the source performs no validation of `top_k` and no truncation,
reordering or field stripping of the response. -/
def hybrid_search (provider : String → Except String (List Rat))
    (backend : SearchRequest → List Hit)
    (query : String) (top_k : Int) (semantic_weight : Rat)
    (filters : Option FilterSet) :
    Except String (List (List (String × FVal))) × List Event :=
  match provider query with
  | .error e => (.error e, [Event.embedCall query])
  | .ok query_vector =>
    let req := hybrid_request query top_k query_vector filters
    (.ok ((backend req).map toResult), [Event.embedCall query, Event.backendCall req])

/-- Length of a successful result list (0 for a propagated exception). -/
def okLength : Except String (List (List (String × FVal))) → Nat
  | .ok l => l.length
  | .error _ => 0

/-- Result list of a successful search (empty for a propagated exception). -/
def okResults : Except String (List (List (String × FVal))) →
    List (List (String × FVal))
  | .ok l => l
  | .error _ => []

/-- Scores of a hit list, in response order. -/
def scoresOf (hits : List Hit) : List Rat :=
  hits.map (fun h => h.score)

/-- A list of scores is in (weakly) descending order. -/
def descendingB : List Rat → Bool
  | [] => true
  | [_] => true
  | a :: b :: rest => decide (b ≤ a) && descendingB (b :: rest)

/-- Whether `suff` is a suffix of `s`, computed on the character lists
(an executable model of the `*_vector` wildcard test on a field name). -/
def strEndsWith (s suff : String) : Bool :=
  decide (suff.data.length ≤ s.data.length) &&
  decide (s.data.drop (s.data.length - suff.data.length) = suff.data)

/-- A result dict contains a field whose name ends in `_vector`. -/
def hasVectorKey (r : List (String × FVal)) : Bool :=
  r.any (fun kv => strEndsWith kv.1 "_vector")

/-- The filter value returned by `VectorSearch._build_filters`
(vector_search.py lines 79-114): the empty dict when no clause applies,
`{"bool": {"must": clauses}}` otherwise. The `must_clauses` list is built
by code identical line for line to `HybridSearch._build_filters`, shared
here as `build_filters`. -/
inductive BoolFilter where
  | emptyDict : BoolFilter
  | boolMust (preds : List FilterClause) : BoolFilter
  deriving DecidableEq, Repr

/-- `VectorSearch._build_filters`: wrap the shared clause list. -/
def vs_build_filters (filters : FilterSet) : BoolFilter :=
  if List.isEmpty (build_filters filters) then BoolFilter.emptyDict
  else BoolFilter.boolMust (build_filters filters)

/-- The kNN request of `VectorSearch.search`: `k = top_k`,
`num_candidates = top_k * 2`. -/
structure VsKnnQuery where
  field : String
  query_vector : List Rat
  k : Int
  num_candidates : Int
  filter : Option BoolFilter
  deriving DecidableEq, Repr

/-- The full request sent by `VectorSearch.search`. -/
structure VsRequest where
  knn : VsKnnQuery
  size : Int
  source_excludes : List String
  deriving DecidableEq, Repr

/-- The request built by `VectorSearch.search` (vector_search.py
lines 44-64). -/
def vs_request (query : String) (top_k : Int) (query_vector : List Rat)
    (filters : Option FilterSet) : VsRequest :=
  { knn :=
      { field := "combined_vector"
        query_vector := query_vector
        k := top_k
        num_candidates := top_k * 2
        filter :=
          if filtersTruthy filters then some (vs_build_filters (filters.getD [])) else none }
    size := top_k
    source_excludes := ["*_vector"] }

/-- The default of the `min_score` parameter of `VectorSearch.search`. -/
def vs_min_score_default : Rat := 1 / 2

/-- The hits of the response that survive the `hit['_score'] >= min_score`
check of the result loop (vector_search.py lines 66-77), in response
order. -/
def vs_kept (min_score : Rat) (hits : List Hit) : List Hit :=
  hits.filter (fun h => min_score ≤ h.score)

/-- The result list built by the loop of `VectorSearch.search`: one result
dict per surviving hit, in response order. -/
def vs_process (min_score : Rat) (hits : List Hit) : List (List (String × FVal)) :=
  (vs_kept min_score hits).map toResult

/-- `VectorSearch.search` (vector_search.py lines 22-77): embed the query
(exceptions propagate), build the kNN request, call the backend, and keep
the results scoring at least `min_score`. -/
def vector_search (provider : String → Except String (List Rat))
    (backend : VsRequest → List Hit)
    (query : String) (top_k : Int) (min_score : Rat)
    (filters : Option FilterSet) :
    Except String (List (List (String × FVal))) :=
  match provider query with
  | .error e => .error e
  | .ok query_vector =>
    .ok (vs_process min_score (backend (vs_request query top_k query_vector filters)))

/-! Helper lemmas about dict lookup and merge. -/

theorem fsLookup_cons_ne (k : String) (v : FVal) (fs : List (String × FVal))
    (key : String) (hne : k ≠ key) :
    fsLookup ((k, v) :: fs) key = fsLookup fs key := by
  simp [fsLookup, hne]

theorem fsLookup_dictSet_ne (d : List (String × FVal)) (k0 : String) (v0 : FVal)
    (k : String) (hne : k0 ≠ k) :
    fsLookup (dictSet d k0 v0) k = fsLookup d k := by
  induction d with
  | nil => simp [dictSet, fsLookup, hne]
  | cons p rest ih =>
    obtain ⟨k1, v1⟩ := p
    by_cases h1 : k1 = k0
    · subst h1
      simp [dictSet, fsLookup, hne]
    · simp [dictSet, h1, fsLookup, ih]

theorem fsLookup_dictMerge_none (src : List (String × FVal))
    (d : List (String × FVal)) (k : String) (hs : fsLookup src k = none) :
    fsLookup (dictMerge d src) k = fsLookup d k := by
  induction src generalizing d with
  | nil => rfl
  | cons p rest ih =>
    obtain ⟨k0, v0⟩ := p
    by_cases h0 : k0 = k
    · subst h0
      simp [fsLookup] at hs
    · rw [fsLookup_cons_ne k0 v0 rest k h0] at hs
      show fsLookup (dictMerge (dictSet d k0 v0) rest) k = fsLookup d k
      rw [ih (dictSet d k0 v0) hs, fsLookup_dictSet_ne d k0 v0 k h0]

theorem fsLookup_toResult_id (h : Hit) (hs : fsLookup h.source "id" = none) :
    fsLookup (toResult h) "id" = some (FVal.vstr h.id) := by
  unfold toResult
  rw [fsLookup_dictMerge_none h.source _ "id" hs]
  rfl

theorem fsLookup_toResult_score (h : Hit) (hs : fsLookup h.source "score" = none) :
    fsLookup (toResult h) "score" = some (FVal.vnum h.score) := by
  unfold toResult
  rw [fsLookup_dictMerge_none h.source _ "score" hs]
  rfl

theorem mem_dictSet (d : List (String × FVal)) (k0 : String) (v0 : FVal)
    (p : String × FVal) (hp : p ∈ dictSet d k0 v0) :
    p ∈ d ∨ p = (k0, v0) := by
  induction d with
  | nil =>
    simp [dictSet] at hp
    exact Or.inr hp
  | cons q rest ih =>
    obtain ⟨k1, v1⟩ := q
    by_cases h1 : k1 = k0
    · subst h1
      simp [dictSet] at hp
      rcases hp with h | h
      · exact Or.inr h
      · exact Or.inl (List.mem_cons_of_mem _ h)
    · simp [dictSet, h1] at hp
      rcases hp with h | h
      · exact Or.inl (by simp [h])
      · rcases ih h with h2 | h2
        · exact Or.inl (List.mem_cons_of_mem _ h2)
        · exact Or.inr h2

theorem mem_dictMerge (src : List (String × FVal)) (d : List (String × FVal))
    (p : String × FVal) (hp : p ∈ dictMerge d src) :
    p ∈ d ∨ p ∈ src := by
  induction src generalizing d with
  | nil => exact Or.inl hp
  | cons q rest ih =>
    obtain ⟨k0, v0⟩ := q
    rcases ih (dictSet d k0 v0) hp with h | h
    · rcases mem_dictSet d k0 v0 p h with h2 | h2
      · exact Or.inl h2
      · exact Or.inr (by simp [h2])
    · exact Or.inr (List.mem_cons_of_mem _ h)

theorem hasVectorKey_eq_false :
    ∀ (r : List (String × FVal)),
      (∀ kv ∈ r, strEndsWith kv.1 "_vector" = false) → hasVectorKey r = false
  | [], _ => rfl
  | a :: t, h => by
    have ha := h a (List.mem_cons_self a t)
    have ht : ∀ kv ∈ t, strEndsWith kv.1 "_vector" = false :=
      fun kv hkv => h kv (List.mem_cons_of_mem a hkv)
    unfold hasVectorKey
    rw [List.any_cons, ha, Bool.false_or]
    exact hasVectorKey_eq_false t ht

/-! Claim theorems. -/

/-- C3, counterexample: `translate({min_price: "abc"})` does not raise
`InvalidArgument` — `_build_filters` is a total function with no error
path, and at this exact input it returns a normal clause list with the
unparsed string `"abc"` embedded verbatim as the `gte` bound. -/
theorem min_price_string_translates_verbatim :
    build_filters [("min_price", FVal.vstr "abc")] =
      [FilterClause.range "price" (some (FVal.vstr "abc")) none] := by decide

/-- C3, amended: filter translation performs no numeric parsing or
validation; a value of the numeric keys `min_price`, `max_price`,
`min_rating` that is not a number is copied verbatim into the emitted
range clause, and no error is raised. -/
theorem build_filters_no_numeric_validation (s : String) :
    build_filters [("min_price", FVal.vstr s)] =
      [FilterClause.range "price" (some (FVal.vstr s)) none] ∧
    build_filters [("max_price", FVal.vstr s)] =
      [FilterClause.range "price" none (some (FVal.vstr s))] ∧
    build_filters [("min_rating", FVal.vstr s)] =
      [FilterClause.range "rating" (some (FVal.vstr s)) none] :=
  ⟨rfl, rfl, rfl⟩

/-- C4, counterexample: a key present with the null value is not treated
as absent — `{"category": None}` translates to a `term` clause on the
null value, while the empty FilterSet translates to no clause at all. -/
theorem null_filter_value_not_absent :
    build_filters [("category", FVal.vnull)] ≠ build_filters ([] : FilterSet) := by
  decide

/-- C4, amended: `_build_filters` tests only key presence (`'k' in
filters`), so a key bound to a null/empty value is still translated, with
that value compared verbatim; only genuinely absent keys contribute
nothing. -/
theorem present_null_key_still_compared (fs : FilterSet)
    (h : fsLookup fs "category" = some FVal.vnull) :
    FilterClause.term "category" FVal.vnull ∈ build_filters fs := by
  simp [build_filters, h]

/-- C4, witness for the amended theorem. -/
theorem present_null_key_still_compared_witness :
    FilterClause.term "category" FVal.vnull ∈ build_filters [("category", FVal.vnull)] :=
  present_null_key_still_compared [("category", FVal.vnull)] (by decide)

/-- C5: filter translation emits exactly the clauses of the spec in spec
order — the price-range clause (with `gte` iff `min_price` is present and
`lte` iff `max_price` is present) first, then category, then brand, then
the rating bound (`build_filters = translate_spec`); the empty FilterSet
yields the empty clause list; and an unknown key is ignored — prepending
it leaves the translation unchanged. -/
theorem build_filters_matches_spec (fs : FilterSet) (k : String) (v : FVal)
    (hk : k ∉ knownFilterKeys) :
    build_filters fs = translate_spec fs ∧
    build_filters ([] : FilterSet) = [] ∧
    build_filters ((k, v) :: fs) = build_filters fs := by
  refine ⟨?_, rfl, ?_⟩
  · unfold build_filters translate_spec
    rcases h1 : fsLookup fs "min_price" with _ | v1 <;>
      rcases h2 : fsLookup fs "max_price" with _ | v2 <;>
      simp [h1, h2]
  · simp only [knownFilterKeys, List.mem_cons, List.not_mem_nil, or_false,
      not_or] at hk
    obtain ⟨n1, n2, n3, n4, n5⟩ := hk
    unfold build_filters
    rw [fsLookup_cons_ne k v fs "min_price" n1,
      fsLookup_cons_ne k v fs "max_price" n2,
      fsLookup_cons_ne k v fs "category" n3,
      fsLookup_cons_ne k v fs "brand" n4,
      fsLookup_cons_ne k v fs "min_rating" n5]

/-- C5, witness. -/
theorem build_filters_matches_spec_witness :
    build_filters [("max_price", FVal.vnum 5)] =
      translate_spec [("max_price", FVal.vnum 5)] ∧
    build_filters ([] : FilterSet) = [] ∧
    build_filters (("color", FVal.vstr "red") :: [("max_price", FVal.vnum 5)]) =
      build_filters [("max_price", FVal.vnum 5)] :=
  build_filters_matches_spec [("max_price", FVal.vnum 5)] "color" (FVal.vstr "red")
    (by decide)

/-- C1, counterexample: `search` with `top_k = 0` is not rejected — no
`InvalidArgument` (or any) error is raised, the embedding call is issued,
and a backend call is issued with `k = size = 0`. -/
theorem topk_zero_not_rejected :
    hybrid_search (fun _ => Except.ok [1]) (fun _ => ([] : List Hit))
        "winter" 0 (1 / 2) none =
      (Except.ok ([] : List (List (String × FVal))),
       [Event.embedCall "winter",
        Event.backendCall (hybrid_request "winter" 0 [1] none)]) := by
  rfl

/-- C1, amended: `HybridSearch.search` performs no validation of `top_k`
at all. For every `top_k ≤ 0` (as for any other value), when the provider
succeeds the embedding call is issued, a backend call is issued with
`knn.k` and `size` both equal to `top_k` unchanged, and the call returns
normally. -/
theorem topk_not_validated (provider : String → Except String (List Rat))
    (backend : SearchRequest → List Hit) (q : String) (tk : Int) (sw : Rat)
    (filters : Option FilterSet) (qv : List Rat)
    (hp : provider q = Except.ok qv) (_htk : tk ≤ 0) :
    hybrid_search provider backend q tk sw filters =
      (Except.ok ((backend (hybrid_request q tk qv filters)).map toResult),
       [Event.embedCall q, Event.backendCall (hybrid_request q tk qv filters)]) ∧
    (hybrid_request q tk qv filters).knn.k = tk ∧
    (hybrid_request q tk qv filters).size = tk := by
  refine ⟨?_, rfl, rfl⟩
  simp [hybrid_search, hp]

/-- C1, witness for the amended theorem. -/
theorem topk_not_validated_witness :
    hybrid_search (fun _ => Except.ok [1]) (fun _ => ([] : List Hit)) "q" 0 0 none =
      (Except.ok (List.map toResult ([] : List Hit)),
       [Event.embedCall "q", Event.backendCall (hybrid_request "q" 0 [1] none)]) ∧
    (hybrid_request "q" 0 [1] none).knn.k = 0 ∧
    (hybrid_request "q" 0 [1] none).size = 0 :=
  topk_not_validated (fun _ => Except.ok [1]) (fun _ => ([] : List Hit))
    "q" 0 0 none [1] rfl (by decide)

/-- C2, counterexample: when the embedding provider raises, `search` does
not wrap the failure in a `DependencyError` (no such class exists in the
repository) — the provider's own exception propagates verbatim: here the
returned error is exactly the cause `"boom"`, and only the embedding call
appears in the trace. -/
theorem embed_failure_propagates_raw :
    hybrid_search (fun _ => Except.error "boom") (fun _ => ([] : List Hit))
        "q" 10 0 none =
      (Except.error "boom", [Event.embedCall "q"]) := by
  rfl

/-- C2, amended: if `encode_query` raises, `HybridSearch.search`
propagates the provider's exception unchanged (it is not wrapped in any
`DependencyError`) and issues no retrieval-backend call; in particular the
failure is never downgraded to a keyword-only search or an empty result. -/
theorem embed_failure_no_backend_call (provider : String → Except String (List Rat))
    (backend : SearchRequest → List Hit) (q : String) (tk : Int) (sw : Rat)
    (filters : Option FilterSet) (e : String)
    (hp : provider q = Except.error e) :
    hybrid_search provider backend q tk sw filters =
      (Except.error e, [Event.embedCall q]) := by
  simp [hybrid_search, hp]

/-- C2, witness for the amended theorem. -/
theorem embed_failure_no_backend_call_witness :
    hybrid_search (fun _ => Except.error "down") (fun _ => ([] : List Hit))
        "w" 5 0 (some [("brand", FVal.vstr "x")]) =
      (Except.error "down", [Event.embedCall "w"]) :=
  embed_failure_no_backend_call (fun _ => Except.error "down")
    (fun _ => ([] : List Hit)) "w" 5 0 (some [("brand", FVal.vstr "x")]) "down" rfl

/-- C6: for every non-empty FilterSet passed to `search`, the filter
clauses attached to the keyword (`bool.filter`) sub-query and to the kNN
(`knn.filter`) sub-query are identical — both are the output of the one
shared `_build_filters` call. -/
theorem filters_identical_both_subqueries (q : String) (tk : Int) (qv : List Rat)
    (fs : FilterSet) (h : fs ≠ []) :
    (hybrid_request q tk qv (some fs)).query.filter =
      (hybrid_request q tk qv (some fs)).knn.filter ∧
    (hybrid_request q tk qv (some fs)).query.filter = some (build_filters fs) := by
  have hne : filtersTruthy (some fs) = true := by
    cases fs with
    | nil => cases h rfl
    | cons a l => rfl
  constructor <;> simp [hybrid_request, hne]

/-- C6, witness. -/
theorem filters_identical_both_subqueries_witness :
    (hybrid_request "q" 3 [1] (some [("brand", FVal.vstr "x")])).query.filter =
      (hybrid_request "q" 3 [1] (some [("brand", FVal.vstr "x")])).knn.filter ∧
    (hybrid_request "q" 3 [1] (some [("brand", FVal.vstr "x")])).query.filter =
      some (build_filters [("brand", FVal.vstr "x")]) :=
  filters_identical_both_subqueries "q" 3 [1] [("brand", FVal.vstr "x")] (by decide)

/-- C8: the request built by `HybridSearch.search` contains the lexical
sub-query matching title, description and tags with boosts 3, 2, 1
(ratio title:description:tags = 3:2:1) and fuzzy matching enabled
(`fuzziness = "AUTO"`), the kNN sub-query against `combined_vector` with
`k = top_k` and `num_candidates = 3 * top_k`, and native RRF ranking with
window size 50 and rank constant 20. -/
theorem hybrid_request_shape (q : String) (tk : Int) (qv : List Rat)
    (filters : Option FilterSet) :
    (hybrid_request q tk qv filters).query.should =
      [{ query := q
         fields := [("title", 3), ("description", 2), ("tags", 1)]
         matchType := "best_fields"
         fuzziness := "AUTO" }] ∧
    (hybrid_request q tk qv filters).knn.field = "combined_vector" ∧
    (hybrid_request q tk qv filters).knn.query_vector = qv ∧
    (hybrid_request q tk qv filters).knn.k = tk ∧
    (hybrid_request q tk qv filters).knn.num_candidates = tk * 3 ∧
    (hybrid_request q tk qv filters).rank = { window_size := 50, rank_constant := 20 } :=
  ⟨rfl, rfl, rfl, rfl, rfl, rfl⟩

/-- C7, counterexample: `search` performs no truncation of its own — if
the backend response contains more hits than `top_k` (here 2 hits with
`top_k = 1`), every one of them is returned, so "at most `top_k` results
for every backend response" is false. -/
theorem search_exceeds_topk_on_oversized_response :
    okLength (hybrid_search (fun _ => Except.ok [1])
      (fun _ => [{ id := "a", score := 3, source := [] },
                 { id := "b", score := 2, source := [] }])
      "q" 1 0 none).1 = 2 := by
  rfl

/-- C7, amended: `search` requests `size = top_k` but returns the backend
response verbatim — one result per hit, in response order, each carrying
its hit's score. Hence whenever the backend honors the request (at most
`top_k` hits, sorted by descending fused score), the returned list has at
most `top_k` entries ordered by descending fused score. -/
theorem search_returns_backend_hits_verbatim
    (provider : String → Except String (List Rat))
    (backend : SearchRequest → List Hit) (q : String) (tk : Int) (sw : Rat)
    (filters : Option FilterSet) (qv : List Rat)
    (hp : provider q = Except.ok qv)
    (hlen : (backend (hybrid_request q tk qv filters)).length ≤ tk.toNat)
    (_hsort : descendingB (scoresOf (backend (hybrid_request q tk qv filters))) = true)
    (hclean : ∀ h ∈ backend (hybrid_request q tk qv filters),
      fsLookup h.source "score" = none) :
    (hybrid_search provider backend q tk sw filters).1 =
      Except.ok ((backend (hybrid_request q tk qv filters)).map toResult) ∧
    okLength (hybrid_search provider backend q tk sw filters).1 ≤ tk.toNat ∧
    ((backend (hybrid_request q tk qv filters)).map toResult).map
        (fun r => fsLookup r "score") =
      (backend (hybrid_request q tk qv filters)).map
        (fun h => some (FVal.vnum h.score)) ∧
    (hybrid_request q tk qv filters).size = tk := by
  have h1 : (hybrid_search provider backend q tk sw filters).1 =
      Except.ok ((backend (hybrid_request q tk qv filters)).map toResult) := by
    simp [hybrid_search, hp]
  refine ⟨h1, ?_, ?_, rfl⟩
  · rw [h1]
    show ((backend (hybrid_request q tk qv filters)).map toResult).length ≤ tk.toNat
    rw [List.length_map]
    exact hlen
  · rw [List.map_map]
    exact List.map_congr_left fun h hm =>
      fsLookup_toResult_score h (hclean h hm)

/-- C7, witness for the amended theorem. -/
theorem search_returns_backend_hits_verbatim_witness :
    (hybrid_search (fun _ => Except.ok [1])
      (fun _ => [{ id := "a", score := 3, source := [] },
                 { id := "b", score := 2, source := [] }]) "q" 2 0 none).1 =
      Except.ok ([{ id := "a", score := 3, source := ([] : List (String × FVal)) },
                  { id := "b", score := 2, source := [] }].map toResult) ∧
    okLength (hybrid_search (fun _ => Except.ok [1])
      (fun _ => [{ id := "a", score := 3, source := [] },
                 { id := "b", score := 2, source := [] }]) "q" 2 0 none).1 ≤
      (2 : Int).toNat ∧
    (([{ id := "a", score := 3, source := [] },
        { id := "b", score := 2, source := [] }] : List Hit).map toResult).map
        (fun r => fsLookup r "score") =
      ([{ id := "a", score := 3, source := [] },
        { id := "b", score := 2, source := [] }] : List Hit).map
        (fun h => some (FVal.vnum h.score)) ∧
    (hybrid_request "q" 2 [1] none).size = 2 :=
  search_returns_backend_hits_verbatim (fun _ => Except.ok [1])
    (fun _ => [{ id := "a", score := 3, source := [] },
               { id := "b", score := 2, source := [] }])
    "q" 2 0 none [1] rfl (by decide) (by decide) (by decide)

/-- C9, counterexample: `search` strips no vector field itself — it only
asks the backend to exclude `*_vector` fields. If the backend response
nonetheless carries a `combined_vector` field in a hit source, the
returned result contains it. -/
theorem vector_field_not_stripped_clientside :
    (okResults (hybrid_search (fun _ => Except.ok [1])
      (fun _ => [{ id := "d", score := 1,
                   source := [("combined_vector", FVal.vlist [1, 2])] }])
      "q" 3 0 none).1).any hasVectorKey = true := by
  rfl

/-- C9, amended: the request sets the source exclusion pattern
`["*_vector"]`, delegating vector stripping to the backend; `search`
itself copies each hit's source verbatim into the result. Hence for every
backend response whose hit sources contain no `*_vector` field (as the
exclusion instructs) and no colliding `id`/`score` field, every returned
result contains no vector field and carries the hit's identifier under
`id` and its fused score under `score`. -/
theorem results_vector_free_when_backend_excludes
    (provider : String → Except String (List Rat))
    (backend : SearchRequest → List Hit) (q : String) (tk : Int) (sw : Rat)
    (filters : Option FilterSet) (qv : List Rat)
    (hp : provider q = Except.ok qv)
    (hclean : ∀ h ∈ backend (hybrid_request q tk qv filters),
      (∀ kv ∈ h.source, strEndsWith kv.1 "_vector" = false) ∧
      fsLookup h.source "id" = none ∧ fsLookup h.source "score" = none) :
    (hybrid_request q tk qv filters).source_excludes = ["*_vector"] ∧
    ∀ h ∈ backend (hybrid_request q tk qv filters),
      toResult h ∈ okResults (hybrid_search provider backend q tk sw filters).1 ∧
      hasVectorKey (toResult h) = false ∧
      fsLookup (toResult h) "id" = some (FVal.vstr h.id) ∧
      fsLookup (toResult h) "score" = some (FVal.vnum h.score) := by
  refine ⟨rfl, fun h hmem => ?_⟩
  obtain ⟨hv, hid, hsc⟩ := hclean h hmem
  refine ⟨?_, ?_, fsLookup_toResult_id h hid, fsLookup_toResult_score h hsc⟩
  · have hres : okResults (hybrid_search provider backend q tk sw filters).1 =
        (backend (hybrid_request q tk qv filters)).map toResult := by
      simp [hybrid_search, hp, okResults]
    rw [hres]
    exact List.mem_map_of_mem toResult hmem
  · apply hasVectorKey_eq_false
    intro kv hkv
    rcases mem_dictMerge h.source _ kv hkv with hbase | hsrc
    · simp only [List.mem_cons, List.not_mem_nil, or_false] at hbase
      rcases hbase with h1 | h1 <;> rw [h1] <;> rfl
    · exact hv kv hsrc

/-- C9, witness for the amended theorem. -/
theorem results_vector_free_witness :
    (hybrid_request "w" 3 [1] none).source_excludes = ["*_vector"] ∧
    ∀ h ∈ [{ id := "d", score := 2, source := [("title", FVal.vstr "t")] : Hit }],
      toResult h ∈ okResults (hybrid_search (fun _ => Except.ok [1])
        (fun _ => [{ id := "d", score := 2,
                     source := [("title", FVal.vstr "t")] }]) "w" 3 0 none).1 ∧
      hasVectorKey (toResult h) = false ∧
      fsLookup (toResult h) "id" = some (FVal.vstr h.id) ∧
      fsLookup (toResult h) "score" = some (FVal.vnum h.score) :=
  results_vector_free_when_backend_excludes (fun _ => Except.ok [1])
    (fun _ => [{ id := "d", score := 2, source := [("title", FVal.vstr "t")] }])
    "w" 3 0 none [1] rfl (by decide)

/-- C10: `VectorSearch.search` keeps exactly the hits scoring at least
`min_score` (whose parameter default is 0.5): when the provider succeeds
it returns one result per surviving hit, every surviving hit's score is at
least `min_score`, and the surviving hits are a sublist of the backend
response (the backend's relative order is preserved). -/
theorem vector_search_min_score_filter
    (provider : String → Except String (List Rat))
    (backend : VsRequest → List Hit) (q : String) (tk : Int) (ms : Rat)
    (filters : Option FilterSet) (qv : List Rat)
    (hp : provider q = Except.ok qv) :
    vector_search provider backend q tk ms filters =
      Except.ok ((vs_kept ms (backend (vs_request q tk qv filters))).map toResult) ∧
    (∀ h ∈ vs_kept ms (backend (vs_request q tk qv filters)), ms ≤ h.score) ∧
    (vs_kept ms (backend (vs_request q tk qv filters))).Sublist
      (backend (vs_request q tk qv filters)) ∧
    vs_min_score_default = 1 / 2 := by
  refine ⟨by simp [vector_search, hp, vs_process], fun h hm => ?_,
    List.filter_sublist _, rfl⟩
  have hmf := List.mem_filter.mp hm
  exact of_decide_eq_true hmf.2

/-- C10, witness. -/
theorem vector_search_min_score_filter_witness :
    vector_search (fun _ => Except.ok [1])
      (fun _ => [{ id := "a", score := 2, source := [] },
                 { id := "b", score := 0, source := [] }]) "q" 2 1 none =
      Except.ok ((vs_kept 1 [{ id := "a", score := 2, source := [] },
                             { id := "b", score := 0, source := [] }]).map toResult) ∧
    (∀ h ∈ vs_kept 1 [{ id := "a", score := 2, source := ([] : List (String × FVal)) },
                      { id := "b", score := 0, source := [] }], (1 : Rat) ≤ h.score) ∧
    (vs_kept 1 [{ id := "a", score := 2, source := ([] : List (String × FVal)) },
                { id := "b", score := 0, source := [] }]).Sublist
      [{ id := "a", score := 2, source := [] },
       { id := "b", score := 0, source := [] }] ∧
    vs_min_score_default = 1 / 2 :=
  vector_search_min_score_filter (fun _ => Except.ok [1])
    (fun _ => [{ id := "a", score := 2, source := [] },
               { id := "b", score := 0, source := [] }]) "q" 2 1 none [1] rfl
